import Mathlib

/-!
Shallow embedding of `main.py` (a FastAPI proxy over the Spotify Web API).

Upstream HTTP traffic is modelled explicitly: each handler takes a "world"
record holding the outcome of every outbound call it may make
(`Except String _` — the `error` constructor is a network-level
`requests.exceptions.RequestException`, carrying its message).  Python
exceptions inside a handler are modelled by computing in
`Except PyError _`; the `try/except` blocks at the end of each handler are
the function `handleErrors`, which turns those into the `{"error": ...}`
JSON bodies the code returns.  JSON objects whose fields the code reads
unconditionally (`d["k"]`) are structures with those fields; fields read
with `.get` are `Option`s; list indexing is `pyIndex`, which raises
`IndexError` exactly when Python does.
-/

namespace SpotifyApi

/-- An entry of an `images` array: the code only ever reads `["url"]`. -/
structure Image where
  url : String
  deriving Repr, DecidableEq

/-- An entry of an `artists` array inside a track: only `["name"]` is read. -/
structure SpotifyArtist where
  name : String
  deriving Repr, DecidableEq

/-- A track's `album` object: the code reads `["name"]` and `["images"]`. -/
structure Album where
  name : String
  images : List Image
  deriving Repr, DecidableEq

/-- An `external_urls` object: only `["spotify"]` is read. -/
structure ExternalUrls where
  spotify : String
  deriving Repr, DecidableEq

/-- A track item, as read by the now-playing and top-tracks mappings. -/
structure Track where
  name : String
  artists : List SpotifyArtist
  album : Album
  external_urls : ExternalUrls
  deriving Repr, DecidableEq

/-- An artist item, as read by the top-artists mapping. -/
structure ArtistItem where
  name : String
  images : List Image
  external_urls : ExternalUrls
  deriving Repr, DecidableEq

/-- A Python exception relevant to these handlers: either a
`requests.exceptions.RequestException` (network failure or
`raise_for_status`) or any other exception (`KeyError`, `IndexError`, ...). -/
inductive PyError where
  | requestException (msg : String)
  | otherError (msg : String)
  deriving Repr, DecidableEq

/-- A `requests.Response`: its status code and the value `.json()` parses to
(already projected onto the fields the handler reads). -/
structure HttpResp (β : Type) where
  status_code : Nat
  body : β
  deriving Repr, DecidableEq

/-- `response.raise_for_status()`: raises `requests.exceptions.HTTPError`
(a `RequestException`) exactly for status codes in `[400, 600)`. -/
def raise_for_status {β : Type} (r : HttpResp β) : Except PyError (HttpResp β) :=
  if 400 ≤ r.status_code ∧ r.status_code < 600 then
    Except.error (PyError.requestException ("HTTPError: " ++ toString r.status_code))
  else
    Except.ok r

/-- An outbound `requests.get`/`requests.post`: the world either supplies a
response or a network-level failure, which surfaces as a raised
`RequestException`. -/
def doRequest {α : Type} (r : Except String α) : Except PyError α :=
  match r with
  | Except.error e => Except.error (PyError.requestException e)
  | Except.ok v => Except.ok v

/-- Python list indexing `xs[i]`: raises `IndexError` when out of range. -/
def pyIndex {α : Type} (xs : List α) (i : Nat) : Except PyError α :=
  match xs.get? i with
  | some x => Except.ok x
  | none => Except.error (PyError.otherError "IndexError: list index out of range")

/-- `", ".join(artist["name"] for artist in artists)`. -/
def joinArtistNames (artists : List SpotifyArtist) : String :=
  String.intercalate ", " (artists.map (fun a => a.name))

/- ## Token provider (`get_access_token`) -/

/-- The world of the token endpoint: a network outcome whose response body is
projected onto the one field the code reads, `json()['access_token']`
(`none` models a body without that field). -/
structure TokenUpstream where
  response : Except String (HttpResp (Option String))
  deriving Repr

/-- `get_access_token` (main.py lines 43-62): POST to the token endpoint,
`raise_for_status`, then return `response.json()['access_token']`
(a missing field raises `KeyError`). -/
def get_access_token (u : TokenUpstream) : Except PyError String := do
  let response ← doRequest u.response
  let response ← raise_for_status response
  match response.body with
  | some tok => Except.ok tok
  | none => Except.error (PyError.otherError "KeyError: access_token")

/- ## Now-playing handler (`get_now_playing`) -/

/-- The now-playing response body: the code reads `data.get("is_playing")`
and `data.get("item")` (both may be absent). -/
structure NowPlayingData where
  is_playing : Option Bool
  item : Option Track
  deriving Repr, DecidableEq

/-- An entry of the recently-played `items` array: only `["track"]` is read. -/
structure RecentItem where
  track : Track
  deriving Repr, DecidableEq

/-- The recently-played response body: `recent_data.get("items")`. -/
structure RecentData where
  items : Option (List RecentItem)
  deriving Repr, DecidableEq

/-- The upstream calls `get_now_playing` may make, in order: token refresh,
the currently-playing call, and (only on 204) the recently-played call.
The currently-playing body is `Option` since an empty/null body is possible
(`if not data`). -/
structure NowPlayingWorld where
  token : TokenUpstream
  nowPlaying : Except String (HttpResp (Option NowPlayingData))
  recentlyPlayed : Except String (HttpResp RecentData)
  deriving Repr

/-- The `PlaybackState` response shape: `{isPlaying, hasData}` plus the five
track fields, which are absent (`none`) when there is no data. -/
structure TrackInfo where
  isPlaying : Bool
  hasData : Bool
  title : Option String := none
  artist : Option String := none
  album : Option String := none
  albumImageUrl : Option String := none
  songUrl : Option String := none
  deriving Repr, DecidableEq

/-- `{"isPlaying": False, "hasData": False}`. -/
def noData : TrackInfo := { isPlaying := false, hasData := false }

/-- The track-to-`PlaybackState` mapping shared by both branches of
`get_now_playing` (lines 86-94 and 103-111): reads `name`, joins artist
names, reads `album.name`, indexes `album.images[0]`, reads
`external_urls.spotify`. -/
def trackInfoOf (isPlaying : Bool) (track : Track) : Except PyError TrackInfo := do
  let img ← pyIndex track.album.images 0
  Except.ok
    { isPlaying := isPlaying
      hasData := true
      title := some track.name
      artist := some (joinArtistNames track.artists)
      album := some track.album.name
      albumImageUrl := some img.url
      songUrl := some track.external_urls.spotify }

/-- The body of the `try` block of `get_now_playing` (main.py lines 70-112). -/
def nowPlayingCore (w : NowPlayingWorld) : Except PyError TrackInfo := do
  let _access_token ← get_access_token w.token
  let response ← doRequest w.nowPlaying
  if response.status_code = 204 then
    let recent_response ← doRequest w.recentlyPlayed
    let recent_response ← raise_for_status recent_response
    let recent_data := recent_response.body
    match recent_data.items with
    | none => Except.ok noData
    | some [] => Except.ok noData
    | some (first :: _) => trackInfoOf false first.track
  else do
    let response ← raise_for_status response
    match response.body with
    | none => Except.ok noData
    | some data =>
      if data.is_playing.getD false = false then Except.ok noData
      else
        match data.item with
        | none => Except.ok noData
        | some item => trackInfoOf true item

/-- A handler's HTTP reply: either the mapped JSON value, or the
`{"error": <string>}` body produced by the `except` clauses. -/
inductive ApiResult (α : Type) where
  | ok (val : α)
  | error (msg : String)
  deriving Repr, DecidableEq

/-- The two `except` clauses every Spotify-data handler ends with:
`RequestException e → {"error": f"Could not connect to Spotify API: {e}"}`,
any other exception `e → {"error": f"An unexpected error occurred: {e}"}`. -/
def handleErrors {α : Type} (e : Except PyError α) : ApiResult α :=
  match e with
  | Except.ok v => ApiResult.ok v
  | Except.error (PyError.requestException m) =>
      ApiResult.error ("Could not connect to Spotify API: " ++ m)
  | Except.error (PyError.otherError m) =>
      ApiResult.error ("An unexpected error occurred: " ++ m)

/-- `GET /api/now-playing` (main.py lines 65-117). -/
def get_now_playing (w : NowPlayingWorld) : ApiResult TrackInfo :=
  handleErrors (nowPlayingCore w)

/- ## Top-tracks handler (`get_top_tracks`) -/

/-- A top-items response body: `data.get("items", [])`. -/
structure TopItemsData (α : Type) where
  items : Option (List α)
  deriving Repr, DecidableEq

/-- The upstream calls `get_top_tracks` makes: token refresh and the
top-tracks call. -/
structure TopTracksWorld where
  token : TokenUpstream
  response : Except String (HttpResp (TopItemsData Track))
  deriving Repr

/-- The `TrackSummary` output shape of `/api/top-tracks`. -/
structure TrackSummary where
  title : String
  artist : String
  albumImageUrl : String
  songUrl : String
  deriving Repr, DecidableEq

/-- The per-item mapping of the top-tracks loop (main.py lines 138-143):
`albumImageUrl` is `item["album"]["images"][2]["url"]` — a bare index 2
with no fallback. -/
def mapTrackItem (item : Track) : Except PyError TrackSummary := do
  let img ← pyIndex item.album.images 2
  Except.ok
    { title := item.name
      artist := joinArtistNames item.artists
      albumImageUrl := img.url
      songUrl := item.external_urls.spotify }

/-- The `for item in data.get("items", []): tracks.append(...)` loop:
an exception while mapping any item aborts the whole handler. -/
def mapTracksLoop : List Track → Except PyError (List TrackSummary)
  | [] => Except.ok []
  | item :: rest => do
      let t ← mapTrackItem item
      let ts ← mapTracksLoop rest
      Except.ok (t :: ts)

/-- The body of the `try` block of `get_top_tracks` (main.py lines 125-146). -/
def topTracksCore (w : TopTracksWorld) : Except PyError (List TrackSummary) := do
  let _access_token ← get_access_token w.token
  let response ← doRequest w.response
  let response ← raise_for_status response
  mapTracksLoop (response.body.items.getD [])

/-- `GET /api/top-tracks` (main.py lines 120-151); `ApiResult.ok ts` is the
`{"tracks": ts}` body. -/
def get_top_tracks (w : TopTracksWorld) : ApiResult (List TrackSummary) :=
  handleErrors (topTracksCore w)

/- ## Top-artists handler (`get_top_artists`) -/

/-- The upstream calls `get_top_artists` makes. -/
structure TopArtistsWorld where
  token : TokenUpstream
  response : Except String (HttpResp (TopItemsData ArtistItem))
  deriving Repr

/-- The `ArtistSummary` output shape of `/api/top-artists`. -/
structure ArtistSummary where
  name : String
  imageUrl : String
  artistUrl : String
  deriving Repr, DecidableEq

/-- The placeholder used when an artist has no images (main.py line 173). -/
def placeholderImageUrl : String := "https://placehold.co/64x64/0b0c1a/ffffff?text=?"

/-- The per-item mapping of the top-artists loop (main.py lines 171-175):
`item["images"][1]["url"] if len(item["images"]) > 1 else
(item["images"][0]["url"] if item["images"] else placeholder)`.
Both indexings are guarded by the conditions, so this mapping is total. -/
def mapArtistItem (item : ArtistItem) : ArtistSummary :=
  { name := item.name
    imageUrl :=
      if h : 1 < item.images.length then (item.images.get ⟨1, h⟩).url
      else if h0 : 0 < item.images.length then (item.images.get ⟨0, h0⟩).url
      else placeholderImageUrl
    artistUrl := item.external_urls.spotify }

/-- The body of the `try` block of `get_top_artists` (main.py lines 158-178). -/
def topArtistsCore (w : TopArtistsWorld) : Except PyError (List ArtistSummary) := do
  let _access_token ← get_access_token w.token
  let response ← doRequest w.response
  let response ← raise_for_status response
  Except.ok ((response.body.items.getD []).map mapArtistItem)

/-- `GET /api/top-artists` (main.py lines 153-183); `ApiResult.ok l` is the
`{"artists": l}` body. -/
def get_top_artists (w : TopArtistsWorld) : ApiResult (List ArtistSummary) :=
  handleErrors (topArtistsCore w)

/- ## Game-lookup handler (spec §4.4) -/

/-- Modelled from the spec: no game-lookup handler exists under `src/`
(main.py has only the token provider and the three Spotify handlers), so the
`GET /api/steam-game` endpoint is taken from spec §4.4, §6 and §7: fetch
game details keyed by `appid`; this structure is the upstream entry for that
identifier, holding its `success` flag and the fields mapped on success
(`name`, `short_description`, `header_image`). -/
structure SteamEntry where
  success : Bool
  name : String
  short_description : String
  header_image : String
  deriving Repr, DecidableEq

/-- Modelled from the spec: the upstream game-details response, as it exists
for a given `appid` — a network outcome whose value is `none` when the
response has no entry for that identifier. -/
structure SteamUpstream where
  response : Except String (Option SteamEntry)
  deriving Repr

/-- The `GameSummary` output shape of `/api/steam-game`. -/
structure GameSummary where
  name : String
  description : String
  imageUrl : String
  steamUrl : String
  deriving Repr, DecidableEq

/-- A game-lookup reply: either the mapped `GameSummary`, or a typed HTTP
failure carrying a status code and a `{detail: ...}` message. -/
inductive SteamResult where
  | ok (game : GameSummary)
  | httpError (status : Nat) (detail : String)
  deriving Repr, DecidableEq

/-- Modelled from the spec: the `GET /api/steam-game?appid=` handler
(spec §4.4 and §7): a network-level failure → HTTP 503; an absent entry or
`success` false → HTTP 404 with a detail message; otherwise map
name/short_description/header_image into a `GameSummary`, synthesizing the
canonical storefront URL from the identifier. -/
def get_steam_game (appid : String) (u : SteamUpstream) : SteamResult :=
  match u.response with
  | Except.error e =>
      SteamResult.httpError 503 ("Could not connect to Steam API: " ++ e)
  | Except.ok none => SteamResult.httpError 404 "Game not found"
  | Except.ok (some entry) =>
      if entry.success then
        SteamResult.ok
          { name := entry.name
            description := entry.short_description
            imageUrl := entry.header_image
            steamUrl := "https://store.steampowered.com/app/" ++ appid }
      else SteamResult.httpError 404 "Game not found"

/- ## Theorems -/

/-- Reduction of `Except` bind on a success, used to unfold the handlers. -/
theorem exceptBind_ok {ε α β : Type} (a : α) (f : α → Except ε β) :
    (Except.ok a : Except ε α) >>= f = f a := rfl

/-- Reduction of `Except` bind on a raised exception. -/
theorem exceptBind_error {ε α β : Type} (e : ε) (f : α → Except ε β) :
    (Except.error e : Except ε α) >>= f = Except.error e := rfl

/-- The failing input for claim C1: a successful token refresh and a
successful top-tracks response whose single item's album has only one image. -/
def c1Track : Track :=
  { name := "Song"
    artists := [{ name := "A" }]
    album := { name := "Album", images := [{ url := "https://img.example/0" }] }
    external_urls := { spotify := "https://open.spotify.com/track/1" } }

/-- The top-tracks world around `c1Track`. -/
def c1World : TopTracksWorld :=
  { token := { response := Except.ok { status_code := 200, body := some "tok" } }
    response := Except.ok { status_code := 200, body := { items := some [c1Track] } } }

/-- Claim C1: the claim says the top-tracks mapping falls back to the first
album image when the preferred index (2) is out of range.  The code does not:
`item["album"]["images"][2]` is unguarded, so an item with a single image
raises `IndexError`, the generic `except` clause catches it, and the whole
endpoint returns an `{"error": ...}` body with no tracks at all — it never
falls back to `images[0]`. -/
theorem c1_top_tracks_no_image_fallback :
    get_top_tracks c1World =
      ApiResult.error
        ("An unexpected error occurred: " ++ "IndexError: list index out of range") := by
  rfl

/-- Claim C2: the game-lookup handler (modelled from the spec, absent from
src/) returns HTTP 503 with a detail message on a network-level failure,
HTTP 404 with a detail message when the upstream response has no entry for
the appid or its success flag is false, and the mapped `GameSummary` on
success. -/
theorem c2_steam_game_spec (appid : String) (u : SteamUpstream) :
    (∀ e, u.response = Except.error e →
        get_steam_game appid u =
          SteamResult.httpError 503 ("Could not connect to Steam API: " ++ e)) ∧
    (u.response = Except.ok none →
        get_steam_game appid u = SteamResult.httpError 404 "Game not found") ∧
    (∀ entry, u.response = Except.ok (some entry) → entry.success = false →
        get_steam_game appid u = SteamResult.httpError 404 "Game not found") ∧
    (∀ entry, u.response = Except.ok (some entry) → entry.success = true →
        get_steam_game appid u =
          SteamResult.ok
            { name := entry.name
              description := entry.short_description
              imageUrl := entry.header_image
              steamUrl := "https://store.steampowered.com/app/" ++ appid }) := by
  constructor
  · intro e he
    simp [get_steam_game, he]
  constructor
  · intro he
    simp [get_steam_game, he]
  constructor
  · intro entry he hs
    simp [get_steam_game, he, hs]
  · intro entry he hs
    simp [get_steam_game, he, hs]

/-- A concrete successful steam entry for the C2 witness. -/
def c2Entry : SteamEntry :=
  { success := true
    name := "TF2"
    short_description := "shooter"
    header_image := "https://img/440" }

/-- Witness for claim C2 at concrete inputs: an absent entry gives 404, a
network failure gives 503, and a successful entry gives the mapped summary. -/
theorem c2_steam_game_spec_witness :
    get_steam_game "440" { response := Except.ok none } =
        SteamResult.httpError 404 "Game not found" ∧
    get_steam_game "440" { response := Except.error "timeout" } =
        SteamResult.httpError 503 ("Could not connect to Steam API: " ++ "timeout") ∧
    get_steam_game "440" { response := Except.ok (some c2Entry) } =
        SteamResult.ok
          { name := "TF2"
            description := "shooter"
            imageUrl := "https://img/440"
            steamUrl := "https://store.steampowered.com/app/" ++ "440" } :=
  ⟨(c2_steam_game_spec "440" _).2.1 rfl,
   (c2_steam_game_spec "440" _).1 "timeout" rfl,
   (c2_steam_game_spec "440" _).2.2.2 _ rfl rfl⟩

/-- Claim C3: when the currently-playing call returns HTTP 204 and the
recently-played call succeeds with at least one item, `get_now_playing`
returns isPlaying=false, hasData=true, and title, artist (comma-joined
names), album, albumImageUrl (first image of the album's list) and songUrl
taken from that first historical item's track. -/
theorem c3_now_playing_recent_fallback (w : NowPlayingWorld) (tok : String)
    (resp : HttpResp (Option NowPlayingData)) (recentResp : HttpResp RecentData)
    (first : RecentItem) (rest : List RecentItem) (img : Image) (imgs : List Image)
    (hTok : get_access_token w.token = Except.ok tok)
    (hNow : w.nowPlaying = Except.ok resp)
    (h204 : resp.status_code = 204)
    (hRecent : w.recentlyPlayed = Except.ok recentResp)
    (hStatus : ¬ (400 ≤ recentResp.status_code ∧ recentResp.status_code < 600))
    (hItems : recentResp.body.items = some (first :: rest))
    (hImgs : first.track.album.images = img :: imgs) :
    get_now_playing w =
      ApiResult.ok
        { isPlaying := false
          hasData := true
          title := some first.track.name
          artist := some (joinArtistNames first.track.artists)
          album := some first.track.album.name
          albumImageUrl := some img.url
          songUrl := some first.track.external_urls.spotify } := by
  simp [get_now_playing, nowPlayingCore, handleErrors, doRequest, raise_for_status,
    trackInfoOf, pyIndex, hTok, hNow, h204, hRecent, hStatus, hItems, hImgs,
    exceptBind_ok]

/-- A concrete recently-played track for the C3 witness. -/
def c3Track : Track :=
  { name := "Last Song"
    artists := [{ name := "A" }, { name := "B" }]
    album := { name := "Alb", images := [{ url := "https://img/0" }, { url := "https://img/1" }] }
    external_urls := { spotify := "https://song" } }

/-- A concrete world for the C3 witness: 204 from currently-playing, one
recent item. -/
def c3World : NowPlayingWorld :=
  { token := { response := Except.ok { status_code := 200, body := some "tok" } }
    nowPlaying := Except.ok { status_code := 204, body := none }
    recentlyPlayed :=
      Except.ok { status_code := 200, body := { items := some [{ track := c3Track }] } } }

/-- Witness for claim C3 at the concrete world `c3World`. -/
theorem c3_now_playing_recent_fallback_witness :
    get_now_playing c3World =
      ApiResult.ok
        { isPlaying := false
          hasData := true
          title := some "Last Song"
          artist := some (joinArtistNames [{ name := "A" }, { name := "B" }])
          album := some "Alb"
          albumImageUrl := some "https://img/0"
          songUrl := some "https://song" } :=
  c3_now_playing_recent_fallback c3World "tok"
    { status_code := 204, body := none }
    { status_code := 200, body := { items := some [{ track := c3Track }] } }
    { track := c3Track } [] { url := "https://img/0" } [{ url := "https://img/1" }]
    rfl rfl rfl rfl (by decide) rfl rfl

/-- Claim C4: when the currently-playing response is successful with
`is_playing` true and a present item, `get_now_playing` returns
isPlaying=true, hasData=true, and its artist field is the item's artist
names joined with a comma and a space. -/
theorem c4_now_playing_active (w : NowPlayingWorld) (tok : String)
    (resp : HttpResp (Option NowPlayingData)) (data : NowPlayingData) (item : Track)
    (img : Image) (imgs : List Image)
    (hTok : get_access_token w.token = Except.ok tok)
    (hNow : w.nowPlaying = Except.ok resp)
    (hNot204 : resp.status_code ≠ 204)
    (hStatus : ¬ (400 ≤ resp.status_code ∧ resp.status_code < 600))
    (hBody : resp.body = some data)
    (hPlaying : data.is_playing = some true)
    (hItem : data.item = some item)
    (hImgs : item.album.images = img :: imgs) :
    get_now_playing w =
      ApiResult.ok
        { isPlaying := true
          hasData := true
          title := some item.name
          artist := some (joinArtistNames item.artists)
          album := some item.album.name
          albumImageUrl := some img.url
          songUrl := some item.external_urls.spotify } := by
  simp [get_now_playing, nowPlayingCore, handleErrors, doRequest, raise_for_status,
    trackInfoOf, pyIndex, hTok, hNow, hNot204, hStatus, hBody, hPlaying, hItem, hImgs,
    exceptBind_ok]

/-- A concrete currently-playing track with two artists for the C4 witness. -/
def c4Track : Track :=
  { name := "Now Song"
    artists := [{ name := "A" }, { name := "B" }]
    album := { name := "Alb", images := [{ url := "https://img/0" }] }
    external_urls := { spotify := "https://song" } }

/-- A concrete world for the C4 witness: HTTP 200 with `is_playing` true. -/
def c4World : NowPlayingWorld :=
  { token := { response := Except.ok { status_code := 200, body := some "tok" } }
    nowPlaying :=
      Except.ok { status_code := 200,
                  body := some { is_playing := some true, item := some c4Track } }
    recentlyPlayed := Except.ok { status_code := 200, body := { items := none } } }

/-- Witness for claim C4: two artists named "A" and "B" yield the artist
string "A, B". -/
theorem c4_now_playing_active_witness :
    get_now_playing c4World =
      ApiResult.ok
        { isPlaying := true
          hasData := true
          title := some "Now Song"
          artist := some "A, B"
          album := some "Alb"
          albumImageUrl := some "https://img/0"
          songUrl := some "https://song" } :=
  c4_now_playing_active c4World "tok"
    { status_code := 200, body := some { is_playing := some true, item := some c4Track } }
    { is_playing := some true, item := some c4Track } c4Track
    { url := "https://img/0" } []
    rfl rfl (by decide) (by decide) rfl rfl rfl rfl

/-- Claim C5: when the currently-playing call returns HTTP 204 and the
recently-played call returns an absent or empty items list,
`get_now_playing` returns exactly isPlaying=false, hasData=false, with all
five optional track fields absent. -/
theorem c5_now_playing_empty (w : NowPlayingWorld) (tok : String)
    (resp : HttpResp (Option NowPlayingData)) (recentResp : HttpResp RecentData)
    (hTok : get_access_token w.token = Except.ok tok)
    (hNow : w.nowPlaying = Except.ok resp)
    (h204 : resp.status_code = 204)
    (hRecent : w.recentlyPlayed = Except.ok recentResp)
    (hStatus : ¬ (400 ≤ recentResp.status_code ∧ recentResp.status_code < 600))
    (hItems : recentResp.body.items = none ∨ recentResp.body.items = some []) :
    get_now_playing w =
      ApiResult.ok
        { isPlaying := false
          hasData := false
          title := none
          artist := none
          album := none
          albumImageUrl := none
          songUrl := none } := by
  rcases hItems with h | h <;>
    simp [get_now_playing, nowPlayingCore, handleErrors, doRequest, raise_for_status,
      noData, hTok, hNow, h204, hRecent, hStatus, h, exceptBind_ok]

/-- A concrete world for the C5 witness: 204 and an absent items list. -/
def c5World : NowPlayingWorld :=
  { token := { response := Except.ok { status_code := 200, body := some "tok" } }
    nowPlaying := Except.ok { status_code := 204, body := none }
    recentlyPlayed := Except.ok { status_code := 200, body := { items := none } } }

/-- Witness for claim C5 at the concrete world `c5World`. -/
theorem c5_now_playing_empty_witness :
    get_now_playing c5World =
      ApiResult.ok
        { isPlaying := false
          hasData := false
          title := none
          artist := none
          album := none
          albumImageUrl := none
          songUrl := none } :=
  c5_now_playing_empty c5World "tok"
    { status_code := 204, body := none }
    { status_code := 200, body := { items := none } }
    rfl rfl rfl rfl (by decide) (Or.inl rfl)

/-- Claim C6: the top-artists per-item mapping (the function applied to every
upstream item by `get_top_artists`) follows the ordered fallback chain for
`imageUrl`: the second image's url when the item has two or more images, the
first image's url when it has exactly one, and the fixed placeholder URL
when it has none. -/
theorem c6_artist_image_chain (n : String) (e : ExternalUrls) :
    (∀ a b rest,
        (mapArtistItem { name := n, images := a :: b :: rest, external_urls := e }).imageUrl
          = b.url) ∧
    (∀ a,
        (mapArtistItem { name := n, images := [a], external_urls := e }).imageUrl = a.url) ∧
    (mapArtistItem { name := n, images := [], external_urls := e }).imageUrl
        = placeholderImageUrl := by
  refine ⟨fun a b rest => by simp [mapArtistItem], fun a => rfl, rfl⟩

/-- Claim C7: whenever the body of a handler's `try` block raises — a
network-level `RequestException` or any other exception — the handler
returns the `{"error": <stringified failure>}` JSON body rather than
propagating an HTTP error, for all three Spotify handlers. -/
theorem c7_error_bodies (wn : NowPlayingWorld) (wt : TopTracksWorld)
    (wa : TopArtistsWorld) (m : String) :
    (nowPlayingCore wn = Except.error (PyError.requestException m) →
        get_now_playing wn = ApiResult.error ("Could not connect to Spotify API: " ++ m)) ∧
    (nowPlayingCore wn = Except.error (PyError.otherError m) →
        get_now_playing wn = ApiResult.error ("An unexpected error occurred: " ++ m)) ∧
    (topTracksCore wt = Except.error (PyError.requestException m) →
        get_top_tracks wt = ApiResult.error ("Could not connect to Spotify API: " ++ m)) ∧
    (topTracksCore wt = Except.error (PyError.otherError m) →
        get_top_tracks wt = ApiResult.error ("An unexpected error occurred: " ++ m)) ∧
    (topArtistsCore wa = Except.error (PyError.requestException m) →
        get_top_artists wa = ApiResult.error ("Could not connect to Spotify API: " ++ m)) ∧
    (topArtistsCore wa = Except.error (PyError.otherError m) →
        get_top_artists wa = ApiResult.error ("An unexpected error occurred: " ++ m)) := by
  refine ⟨fun h => ?_, fun h => ?_, fun h => ?_, fun h => ?_, fun h => ?_, fun h => ?_⟩ <;>
    simp [get_now_playing, get_top_tracks, get_top_artists, handleErrors, h]

/-- A now-playing world whose token refresh fails at the network level. -/
def c7NetWorld : NowPlayingWorld :=
  { token := { response := Except.error "boom" }
    nowPlaying := Except.ok { status_code := 204, body := none }
    recentlyPlayed := Except.ok { status_code := 200, body := { items := none } } }

/-- A top-tracks world whose token refresh fails at the network level. -/
def c7NetTracksWorld : TopTracksWorld :=
  { token := { response := Except.error "boom" }
    response := Except.ok { status_code := 200, body := { items := none } } }

/-- A top-artists world whose token refresh fails at the network level. -/
def c7NetArtistsWorld : TopArtistsWorld :=
  { token := { response := Except.error "boom" }
    response := Except.ok { status_code := 200, body := { items := none } } }

/-- A now-playing world whose token body lacks `access_token` (a KeyError,
i.e. a non-request exception). -/
def c7KeyWorld : NowPlayingWorld :=
  { token := { response := Except.ok { status_code := 200, body := none } }
    nowPlaying := Except.ok { status_code := 204, body := none }
    recentlyPlayed := Except.ok { status_code := 200, body := { items := none } } }

/-- Witness for claim C7: a network failure yields the connect-error body in
each handler, and a non-request exception yields the unexpected-error body. -/
theorem c7_error_bodies_witness :
    get_now_playing c7NetWorld =
        ApiResult.error ("Could not connect to Spotify API: " ++ "boom") ∧
    get_top_tracks c7NetTracksWorld =
        ApiResult.error ("Could not connect to Spotify API: " ++ "boom") ∧
    get_top_artists c7NetArtistsWorld =
        ApiResult.error ("Could not connect to Spotify API: " ++ "boom") ∧
    get_now_playing c7KeyWorld =
        ApiResult.error ("An unexpected error occurred: " ++ "KeyError: access_token") :=
  ⟨(c7_error_bodies c7NetWorld c7NetTracksWorld c7NetArtistsWorld "boom").1 rfl,
   (c7_error_bodies c7NetWorld c7NetTracksWorld c7NetArtistsWorld "boom").2.2.1 rfl,
   (c7_error_bodies c7NetWorld c7NetTracksWorld c7NetArtistsWorld "boom").2.2.2.2.1 rfl,
   (c7_error_bodies c7KeyWorld c7NetTracksWorld c7NetArtistsWorld
      "KeyError: access_token").2.1 rfl⟩

/-- Claim C8: for a token-endpoint response with a non-raising status code
and a body carrying `access_token`, `get_access_token` returns exactly that
string; for a 4xx/5xx status it raises a `RequestException`; and for a body
without the field it raises rather than returning a token. -/
theorem c8_token_provider (u : TokenUpstream) (r : HttpResp (Option String)) (t : String)
    (hResp : u.response = Except.ok r) :
    (¬ (400 ≤ r.status_code ∧ r.status_code < 600) → r.body = some t →
        get_access_token u = Except.ok t) ∧
    (400 ≤ r.status_code → r.status_code < 600 →
        ∃ m, get_access_token u = Except.error (PyError.requestException m)) ∧
    (r.body = none → ∃ e, get_access_token u = Except.error e) := by
  refine ⟨fun hOk hBody => ?_, fun h4 h6 => ?_, fun hBody => ?_⟩
  · simp [get_access_token, doRequest, raise_for_status, hResp, hOk, hBody, exceptBind_ok]
  · refine ⟨"HTTPError: " ++ toString r.status_code, ?_⟩
    simp [get_access_token, doRequest, raise_for_status, hResp, h4, h6, exceptBind_ok,
      exceptBind_error]
  · by_cases hst : 400 ≤ r.status_code ∧ r.status_code < 600
    · exact ⟨PyError.requestException ("HTTPError: " ++ toString r.status_code), by
        simp [get_access_token, doRequest, raise_for_status, hResp, hst, exceptBind_ok,
          exceptBind_error]⟩
    · exact ⟨PyError.otherError "KeyError: access_token", by
        simp [get_access_token, doRequest, raise_for_status, hResp, hst, hBody,
          exceptBind_ok]⟩

/-- Witness for claim C8: a 200 response with `access_token` "tok" returns
`Except.ok "tok"`; a 500 response raises; a 200 response without the field
raises. -/
theorem c8_token_provider_witness :
    get_access_token { response := Except.ok { status_code := 200, body := some "tok" } } =
        Except.ok "tok" ∧
    (∃ m, get_access_token { response := Except.ok { status_code := 500, body := some "tok" } } =
        Except.error (PyError.requestException m)) ∧
    (∃ e, get_access_token { response := Except.ok { status_code := 200, body := none } } =
        Except.error e) :=
  ⟨(c8_token_provider _ { status_code := 200, body := some "tok" } "tok" rfl).1
      (by decide) rfl,
   (c8_token_provider _ { status_code := 500, body := some "tok" } "tok" rfl).2.1
      (by decide) (by decide),
   (c8_token_provider _ { status_code := 200, body := none } "tok" rfl).2.2 rfl⟩

/-- Claim C9: each handler is a pure function of its upstream responses —
two invocations over the same fixed sequence of upstream responses produce
identical outputs; no hidden state influences the mapping. -/
theorem c9_handlers_deterministic (w1 w2 : NowPlayingWorld)
    (t1 t2 : TopTracksWorld) (a1 a2 : TopArtistsWorld) :
    (w1 = w2 → get_now_playing w1 = get_now_playing w2) ∧
    (t1 = t2 → get_top_tracks t1 = get_top_tracks t2) ∧
    (a1 = a2 → get_top_artists a1 = get_top_artists a2) :=
  ⟨fun h => by rw [h], fun h => by rw [h], fun h => by rw [h]⟩

/-- A concrete now-playing world for the determinism witness. -/
def c9World : NowPlayingWorld :=
  { token := { response := Except.ok { status_code := 200, body := some "tok" } }
    nowPlaying := Except.ok { status_code := 204, body := none }
    recentlyPlayed := Except.ok { status_code := 200, body := { items := none } } }

/-- A concrete top-tracks world for the determinism witness. -/
def c9TracksWorld : TopTracksWorld :=
  { token := { response := Except.ok { status_code := 200, body := some "tok" } }
    response := Except.ok { status_code := 200, body := { items := none } } }

/-- A concrete top-artists world for the determinism witness. -/
def c9ArtistsWorld : TopArtistsWorld :=
  { token := { response := Except.ok { status_code := 200, body := some "tok" } }
    response := Except.ok { status_code := 200, body := { items := none } } }

/-- Witness for claim C9 at concrete worlds. -/
theorem c9_handlers_deterministic_witness :
    get_now_playing c9World = get_now_playing c9World ∧
    get_top_tracks c9TracksWorld = get_top_tracks c9TracksWorld ∧
    get_top_artists c9ArtistsWorld = get_top_artists c9ArtistsWorld :=
  ⟨(c9_handlers_deterministic c9World c9World c9TracksWorld c9TracksWorld
      c9ArtistsWorld c9ArtistsWorld).1 rfl,
   (c9_handlers_deterministic c9World c9World c9TracksWorld c9TracksWorld
      c9ArtistsWorld c9ArtistsWorld).2.1 rfl,
   (c9_handlers_deterministic c9World c9World c9TracksWorld c9TracksWorld
      c9ArtistsWorld c9ArtistsWorld).2.2 rfl⟩

/-- The pure summary `mapTrackItem` produces when the album does have an
image at index 2 (used to state claim C10; the `getD` default is never used
under that hypothesis). -/
def trackSummaryOf (item : Track) : TrackSummary :=
  { title := item.name
    artist := joinArtistNames item.artists
    albumImageUrl := ((item.album.images.get? 2).getD { url := "" }).url
    songUrl := item.external_urls.spotify }

/-- The top-tracks loop maps every item in order when each album has an
image at index 2. -/
theorem mapTracksLoop_ok (l : List Track)
    (h : ∀ item ∈ l, 2 < item.album.images.length) :
    mapTracksLoop l = Except.ok (l.map trackSummaryOf) := by
  induction l with
  | nil => rfl
  | cons x xs ih =>
    have hx : 2 < x.album.images.length := h x (List.mem_cons_self x xs)
    have hxs := ih (fun item hm => h item (List.mem_cons_of_mem x hm))
    simp [mapTracksLoop, mapTrackItem, pyIndex, trackSummaryOf, hxs,
      List.getElem?_eq_getElem hx, exceptBind_ok]

/-- Claim C10: on a successful upstream response whose items are well-formed,
the top-tracks and top-artists handlers return one output per upstream item,
in upstream order (the `map` of the per-item mapping over the items list);
and a body with no `items` key yields the empty list, not an error. -/
theorem c10_items_length_order
    (wt : TopTracksWorld) (rt : HttpResp (TopItemsData Track)) (lt : List Track)
    (wa : TopArtistsWorld) (ra : HttpResp (TopItemsData ArtistItem)) (la : List ArtistItem)
    (tokT tokA : String)
    (hTokT : get_access_token wt.token = Except.ok tokT)
    (hRespT : wt.response = Except.ok rt)
    (hStT : ¬ (400 ≤ rt.status_code ∧ rt.status_code < 600))
    (hTokA : get_access_token wa.token = Except.ok tokA)
    (hRespA : wa.response = Except.ok ra)
    (hStA : ¬ (400 ≤ ra.status_code ∧ ra.status_code < 600)) :
    (rt.body.items = some lt → (∀ item ∈ lt, 2 < item.album.images.length) →
        get_top_tracks wt = ApiResult.ok (lt.map trackSummaryOf)) ∧
    (rt.body.items = none → get_top_tracks wt = ApiResult.ok []) ∧
    (ra.body.items = some la → get_top_artists wa = ApiResult.ok (la.map mapArtistItem)) ∧
    (ra.body.items = none → get_top_artists wa = ApiResult.ok []) := by
  refine ⟨fun hI hW => ?_, fun hI => ?_, fun hI => ?_, fun hI => ?_⟩
  · simp [get_top_tracks, topTracksCore, handleErrors, doRequest, raise_for_status,
      hTokT, hRespT, hStT, hI, mapTracksLoop_ok lt hW, exceptBind_ok]
  · simp [get_top_tracks, topTracksCore, handleErrors, doRequest, raise_for_status,
      hTokT, hRespT, hStT, hI, mapTracksLoop, exceptBind_ok]
  · simp [get_top_artists, topArtistsCore, handleErrors, doRequest, raise_for_status,
      hTokA, hRespA, hStA, hI, exceptBind_ok]
  · simp [get_top_artists, topArtistsCore, handleErrors, doRequest, raise_for_status,
      hTokA, hRespA, hStA, hI, exceptBind_ok]

/-- A track with three album images for the C10 witness. -/
def c10Track : Track :=
  { name := "T"
    artists := [{ name := "A" }]
    album := { name := "Alb",
               images := [{ url := "https://img/0" }, { url := "https://img/1" },
                          { url := "https://img/2" }] }
    external_urls := { spotify := "https://t" } }

/-- An artist item with one image for the C10 witness. -/
def c10Artist : ArtistItem :=
  { name := "A"
    images := [{ url := "https://a/0" }]
    external_urls := { spotify := "https://a" } }

/-- A top-tracks world with a single well-formed item for the C10 witness. -/
def c10TracksWorld : TopTracksWorld :=
  { token := { response := Except.ok { status_code := 200, body := some "tok" } }
    response := Except.ok { status_code := 200, body := { items := some [c10Track] } } }

/-- A top-artists world with a single item for the C10 witness. -/
def c10ArtistsWorld : TopArtistsWorld :=
  { token := { response := Except.ok { status_code := 200, body := some "tok" } }
    response := Except.ok { status_code := 200, body := { items := some [c10Artist] } } }

/-- Witness for claim C10 at concrete one-item worlds. -/
theorem c10_items_length_order_witness :
    get_top_tracks c10TracksWorld = ApiResult.ok ([c10Track].map trackSummaryOf) ∧
    get_top_artists c10ArtistsWorld = ApiResult.ok ([c10Artist].map mapArtistItem) :=
  ⟨(c10_items_length_order c10TracksWorld
      { status_code := 200, body := { items := some [c10Track] } } [c10Track]
      c10ArtistsWorld
      { status_code := 200, body := { items := some [c10Artist] } } [c10Artist]
      "tok" "tok" rfl rfl (by decide) rfl rfl (by decide)).1 rfl (by decide),
   (c10_items_length_order c10TracksWorld
      { status_code := 200, body := { items := some [c10Track] } } [c10Track]
      c10ArtistsWorld
      { status_code := 200, body := { items := some [c10Artist] } } [c10Artist]
      "tok" "tok" rfl rfl (by decide) rfl rfl (by decide)).2.2.1 rfl⟩

end SpotifyApi
